import Mathlib

/-!
# Verification of the yok deployment platform core

Shallow embedding of the deployment lifecycle engine of the yok
platform-as-a-service: the status state machine (`api/index.ts`), the
log-driven status classifier (`updateDeploymentStatus`), the Kafka
ingestion pipeline (`consumeLogs`), the deploy dispatch handler
(`app.post /deploy`), the cancel handler (`app.post /deployment/:id/cancel`),
the slug resolver (`app.get /resolve/:slug`) and the Go reverse proxy
(`reverse-proxy/main.go`).

Strings are modelled as Lean `String`/`List Char`; the database is a pair
of association lists; handlers are pure state transformers that also emit
an ordered trace of effects where the claims are about ordering.
-/

namespace Yok

/-- Deployment status enum, from `prisma/schema.prisma` (`DeploymentStatus`). -/
inductive Status where
  | PENDING
  | QUEUED
  | IN_PROGRESS
  | COMPLETED
  | FAILED
deriving DecidableEq, Repr

/-- Terminal statuses, per the spec glossary: `COMPLETED` or `FAILED`. -/
def Status.isTerminal : Status → Bool
  | .COMPLETED => true
  | .FAILED => true
  | _ => false

/-! ## Substring machinery

JS `String.prototype.includes` and `toLowerCase`, modelled on `List Char`
(all strings involved in the classifier are ASCII). -/

/-- `hasPrefixC l p` : `p` is a prefix of `l`. -/
def hasPrefixC : List Char → List Char → Bool
  | _, [] => true
  | [], _ :: _ => false
  | a :: l, b :: p => a = b && hasPrefixC l p

/-- `hasSub l p` : `p` occurs as a contiguous substring of `l`
(JS `l.includes(p)`). -/
def hasSub : List Char → List Char → Bool
  | [], p => hasPrefixC [] p
  | a :: l, p => hasPrefixC (a :: l) p || hasSub l p

/-- ASCII lower-casing of one character (JS `toLowerCase` restricted to
ASCII, which covers every pattern the classifier uses). -/
def lowerChar (c : Char) : Char :=
  if 65 ≤ c.toNat && c.toNat ≤ 90 then Char.ofNat (c.toNat + 32) else c

/-- ASCII lower-casing of a character list. -/
def lowerL (l : List Char) : List Char := l.map lowerChar

/-- JS `s.includes(pat)` on Lean strings. -/
def strIncludes (s pat : String) : Bool := hasSub s.data pat.data

/-! ## The Event Classifier

`updateDeploymentStatus` in `api/index.ts` picks the new status from the
log line with this if/else chain; `classify` is exactly that chain as a
pure function (the spec's Event Classifier §4.3). -/

/-- The status signal implied by one raw log line, read off the branch
conditions of `updateDeploymentStatus` (`api/index.ts:250-271`):
`log.includes('Starting')` → IN_PROGRESS; else
`log.includes('Build output uploaded to S3 successfully')` → COMPLETED; else
`log.toLowerCase().includes('error') || log.toLowerCase().includes('failed')`
→ FAILED; else no signal. -/
def classify (log : String) : Option Status :=
  if strIncludes log "Starting" then
    some .IN_PROGRESS
  else if strIncludes log "Build output uploaded to S3 successfully" then
    some .COMPLETED
  else if hasSub (lowerL log.data) "error".data || hasSub (lowerL log.data) "failed".data then
    some .FAILED
  else
    none

/-- Reference classifier written from the claim's words (C3): rule 2 demands
the line be *exactly equal* to the build-success sentinel, rather than
merely containing it. -/
def classifyClaimRef (log : String) : Option Status :=
  if strIncludes log "Starting" then
    some .IN_PROGRESS
  else if log = "Build output uploaded to S3 successfully" then
    some .COMPLETED
  else if hasSub (lowerL log.data) "error".data || hasSub (lowerL log.data) "failed".data then
    some .FAILED
  else
    none

/-- A classifier rule: a predicate on the line together with the status it
signals. -/
structure Rule where
  test : String → Bool
  signal : Status

/-- First-matching-rule evaluation of an ordered rule list. -/
def firstMatch : List Rule → String → Option Status
  | [], _ => none
  | r :: rs, log => if r.test log then some r.signal else firstMatch rs log

/-- The amended classifier policy as an ordered rule list: build-start
marker containment, build-success sentinel *containment*, then
case-insensitive error/failed containment. -/
def amendedRules : List Rule :=
  [ ⟨fun log => strIncludes log "Starting", .IN_PROGRESS⟩,
    ⟨fun log => strIncludes log "Build output uploaded to S3 successfully", .COMPLETED⟩,
    ⟨fun log => hasSub (lowerL log.data) "error".data || hasSub (lowerL log.data) "failed".data, .FAILED⟩ ]

/-! ## Data model and store

`prisma/schema.prisma`: `Project` and `Deployment` rows; the store is the
pair of tables. Timestamps are `Nat` ticks; Prisma's `@updatedAt` bumps
`updatedAt` on every row update, so updates take a `now` parameter. -/

/-- A `Deployment` row (`prisma/schema.prisma`). -/
structure Deployment where
  id : String
  projectId : String
  status : Status
  createdAt : Nat
  updatedAt : Nat
deriving DecidableEq, Repr

/-- A `Project` row (`prisma/schema.prisma`): the fields the core flows
touch. `latestDeploymentId` is the nullable weak back-reference. -/
structure Project where
  id : String
  name : String
  gitRepoUrl : String
  slug : String
  framework : String
  latestDeploymentId : Option String
deriving DecidableEq, Repr

/-- The metadata store: both tables. -/
structure Store where
  projects : List Project
  deployments : List Deployment
deriving DecidableEq, Repr

/-- `prisma.project.findUnique({where: {id}})`. -/
def findProject (s : Store) (pid : String) : Option Project :=
  s.projects.find? (fun p => p.id == pid)

/-- `prisma.project.findUnique({where: {slug}})`. -/
def findProjectBySlug (s : Store) (sl : String) : Option Project :=
  s.projects.find? (fun p => p.slug == sl)

/-- `prisma.deployment.findUnique({where: {id}})`. -/
def findDeployment (s : Store) (did : String) : Option Deployment :=
  s.deployments.find? (fun d => d.id == did)

/-- Current status of a deployment id, if the row exists. -/
def statusOf (s : Store) (did : String) : Option Status :=
  (findDeployment s did).map (fun d => d.status)

/-- `prisma.deployment.update({where: {id}, data: {status}})`: overwrite
`status` on the matching row; `@updatedAt` bumps `updatedAt`. -/
def setStatus (s : Store) (did : String) (st : Status) (now : Nat) : Store :=
  { s with deployments :=
      s.deployments.map (fun d =>
        if d.id == did then { d with status := st, updatedAt := now } else d) }

/-- `prisma.project.update({where: {id}, data: {latestDeploymentId}})`. -/
def setLatest (s : Store) (pid did : String) : Store :=
  { s with projects :=
      s.projects.map (fun p =>
        if p.id == pid then { p with latestDeploymentId := some did } else p) }

/-- `prisma.deployment.create` (the new row is appended to the table). -/
def addDeployment (s : Store) (d : Deployment) : Store :=
  { s with deployments := s.deployments ++ [d] }

/-! ## `updateDeploymentStatus` (api/index.ts:250-271)

The log-driven transition: the literal if/else chain over the log line,
each branch a `prisma.deployment.update`. -/

/-- `updateDeploymentStatus(deploymentId, log)` from `api/index.ts:250-271`,
as a store transformer. -/
def updateDeploymentStatus (deploymentId : String) (log : String) (now : Nat)
    (s : Store) : Store :=
  if strIncludes log "Starting" then
    setStatus s deploymentId .IN_PROGRESS now
  else if strIncludes log "Build output uploaded to S3 successfully" then
    setStatus s deploymentId .COMPLETED now
  else if hasSub (lowerL log.data) "error".data || hasSub (lowerL log.data) "failed".data then
    setStatus s deploymentId .FAILED now
  else
    s

/-! ## Ingestion pipeline (`consumeLogs`, api/index.ts:287-323)

Per Kafka message (already parsed into a `LogEvent`), the handler runs
`updateDeploymentStatus` and then `storeLogInClickHouse`, in that order. -/

/-- One parsed log event: `{DEPLOYMENT_ID, log}` from the Kafka message. -/
structure LogEvent where
  deploymentId : String
  log : String
deriving DecidableEq, Repr

/-- Pipeline effects, for ordering claims: a status transition write and a
ClickHouse archive insert. -/
inductive PipeEff where
  | transition (did : String) (st : Status)
  | archive (did : String) (log : String)
deriving DecidableEq, Repr

/-- The ordered effect trace of processing one event in `consumeLogs`:
`updateDeploymentStatus` first (a transition write exactly when a branch
matches), then `storeLogInClickHouse` (the archive insert). -/
def processEventTrace (e : LogEvent) : List PipeEff :=
  (match classify e.log with
   | some st => [PipeEff.transition e.deploymentId st]
   | none => []) ++ [PipeEff.archive e.deploymentId e.log]

/-- Pipeline state: the metadata store plus the append-only ClickHouse
`log_events` sink. -/
structure PipeState where
  store : Store
  sink : List LogEvent
deriving DecidableEq, Repr

/-- Process one event: transition (via `updateDeploymentStatus`), then
archive the event to the sink. -/
def processEvent (now : Nat) (ps : PipeState) (e : LogEvent) : PipeState :=
  { store := updateDeploymentStatus e.deploymentId e.log now ps.store,
    sink := ps.sink ++ [e] }

/-- Process a whole batch in stream order (`for (const message of messages)`). -/
def processBatch (now : Nat) (ps : PipeState) (batch : List LogEvent) : PipeState :=
  batch.foldl (processEvent now) ps

/-! ## Deploy handler (`app.post /deploy`, api/index.ts:101-211) -/

/-- Effects emitted by the deploy handler, in execution order. -/
inductive Eff where
  | createDep (did pid : String)
  | setLatestEff (pid did : String)
  | runTask (pid did repoUrl framework : String)
  | respond (code : Nat)
  | setStatusEff (did : String) (st : Status)
deriving DecidableEq, Repr

/-- The `/deploy` handler after body validation: look up the project (404
if absent); create the deployment at `QUEUED`; update the project's
`latestDeploymentId`; send the ECS `RunTaskCommand`; on success respond
202; on failure respond 500 and then set the deployment `FAILED`.
`dispatchOk` abstracts whether `ecsClient.send` succeeds. Returns the
final store and the ordered effect trace. -/
def deployHandler (projectId newDepId : String) (now : Nat) (dispatchOk : Bool)
    (s : Store) : Store × List Eff :=
  match findProject s projectId with
  | none => (s, [Eff.respond 404])
  | some p =>
    let dep : Deployment :=
      { id := newDepId, projectId := projectId, status := .QUEUED,
        createdAt := now, updatedAt := now }
    let s2 := setLatest (addDeployment s dep) projectId newDepId
    let pre := [Eff.createDep newDepId projectId,
                Eff.setLatestEff projectId newDepId,
                Eff.runTask projectId newDepId p.gitRepoUrl p.framework]
    if dispatchOk then
      (s2, pre ++ [Eff.respond 202])
    else
      (setStatus s2 newDepId .FAILED now,
       pre ++ [Eff.respond 500, Eff.setStatusEff newDepId .FAILED])

/-- Index of the first occurrence of `x` in `l`. -/
def firstIdx {α : Type} [DecidableEq α] : List α → α → Option Nat
  | [], _ => none
  | a :: l, x => if a = x then some 0 else (firstIdx l x).map (fun n => n + 1)

/-- `effBefore l a b`: both occur in `l` and the first occurrence of `a`
strictly precedes the first occurrence of `b`. -/
def effBefore {α : Type} [DecidableEq α] (l : List α) (a b : α) : Bool :=
  match firstIdx l a, firstIdx l b with
  | some i, some j => decide (i < j)
  | _, _ => false

/-! ## Cancel handler (`app.post /deployment/:id/cancel`, api/index.ts:580-640) -/

/-- Outcome of the cancel handler. -/
inductive CancelResult where
  | notFound
  | invalidState (st : Status)
  | ok
deriving DecidableEq, Repr

/-- HTTP status code the cancel handler responds with. -/
def cancelStatusCode : CancelResult → Nat
  | .notFound => 404
  | .invalidState _ => 400
  | .ok => 200

/-- The cancel handler after param validation: 404 when the deployment is
unknown; 400 (`Cannot cancel deployment with status ...`) unless the
status is `PENDING`, `QUEUED` or `IN_PROGRESS`; otherwise update the
status to `FAILED` and respond 200. -/
def cancelHandler (id : String) (now : Nat) (s : Store) : CancelResult × Store :=
  match findDeployment s id with
  | none => (CancelResult.notFound, s)
  | some d =>
    if d.status ≠ Status.PENDING ∧ d.status ≠ Status.QUEUED ∧ d.status ≠ Status.IN_PROGRESS then
      (CancelResult.invalidState d.status, s)
    else
      (CancelResult.ok, setStatus s id .FAILED now)

/-! ## Slug resolver (`app.get /resolve/:slug`, api/index.ts:326-364) -/

/-- The `/resolve/:slug` endpoint: look up the project by slug; respond 404
when the project is missing or `latestDeploymentId` is falsy (null or the
empty string in JS); otherwise respond 200 with the `deploymentId`.
`Except Nat String`: error = HTTP status code, ok = deployment id. -/
def resolveApi (sl : String) (s : Store) : Except Nat String :=
  match findProjectBySlug s sl with
  | none => Except.error 404
  | some p =>
    match p.latestDeploymentId with
    | none => Except.error 404
    | some did => if did = "" then Except.error 404 else Except.ok did

/-! ## Reverse proxy (`reverse-proxy/main.go`) -/

/-- One lowercase-ASCII letter, the `[a-z]` character class. -/
def isLowerAlpha (c : Char) : Bool := 97 ≤ c.toNat && c.toNat ≤ 122

/-- Split a character list on a single-character separator
(Go `strings.Split` with a one-character separator; never returns the
empty list). -/
def splitOnChar (sep : Char) : List Char → List (List Char)
  | [] => [[]]
  | c :: cs =>
    if c = sep then [] :: splitOnChar sep cs
    else
      match splitOnChar sep cs with
      | [] => [[c]]
      | w :: ws => (c :: w) :: ws

/-- A nonempty all-lowercase word, the `[a-z]+` piece of the slug regex. -/
def wordShape (w : List Char) : Bool := !w.isEmpty && w.all isLowerAlpha

/-- The slug regexp of the proxy, `^[a-z]+-[a-z]+-[a-z]+$`: exactly three
nonempty lowercase-letter words joined by two hyphens. -/
def slugShape (sub : String) : Bool :=
  match splitOnChar '-' sub.data with
  | [a, b, c] => wordShape a && wordShape b && wordShape c
  | _ => false

/-- First label of a hostname: `strings.Split(hostName, ".")` then
`parts[0]` (`Split` always yields a nonempty slice). -/
def firstLabel (host : String) : String :=
  String.mk ((splitOnChar '.' host.data).headD [])

/-- Outcome of the proxy's `client.Get` to the API `/resolve` endpoint. -/
inductive ApiResp where
  | ok (deploymentId : String)
  | httpErr (code : Nat)
  | netErr
deriving DecidableEq, Repr

/-- An HTTP error reply written by the proxy via `http.Error`. -/
structure ProxyReply where
  code : Nat
  msg : String
deriving DecidableEq, Repr

/-- The proxy's handling of the `/resolve` response
(`reverse-proxy/main.go:72-108`): a transport error or any non-200 status
becomes a 500 `Failed to receive deployment Id`; a 200 body whose
`deploymentId` is empty becomes a 404 `No deployment ID found`; otherwise
the resolved deployment id. -/
def proxyResolveStep (resp : ApiResp) : Except ProxyReply String :=
  match resp with
  | .netErr => Except.error ⟨500, "Failed to receive deployment Id"⟩
  | .httpErr _ => Except.error ⟨500, "Failed to receive deployment Id"⟩
  | .ok did =>
    if did = "" then Except.error ⟨404, "No deployment ID found"⟩
    else Except.ok did

/-- The API response the proxy observes, as a function of the store and of
whether the HTTP round trip succeeds (`transportOk`). -/
def apiRespOf (s : Store) (sub : String) (transportOk : Bool) : ApiResp :=
  if transportOk then
    match resolveApi sub s with
    | .error c => ApiResp.httpErr c
    | .ok did => ApiResp.ok did
  else
    ApiResp.netErr

/-- The proxy's deployment-id resolution for one request
(`reverse-proxy/main.go:59-109`): take the first label of the host; when
it is slug-shaped, ask the API and run `proxyResolveStep`; otherwise use
the label literally as the deployment id. -/
def proxyResolve (host : String) (s : Store) (transportOk : Bool) :
    Except ProxyReply String :=
  let sub := firstLabel host
  if slugShape sub then proxyResolveStep (apiRespOf s sub transportOk)
  else Except.ok sub

/-- Artifact base path for a deployment,
`basePath + deploymentId + "/"` (`reverse-proxy/main.go:112`). -/
def artifactBase (root did : String) : String := root ++ did ++ "/"

/-- The proxy's resolved artifact base for one request: the deployment id
resolution followed by the base-path construction. -/
def proxyTargetBase (root host : String) (s : Store) (transportOk : Bool) :
    Except ProxyReply String :=
  (proxyResolve host s transportOk).map (fun did => artifactBase root did)

/-! ## Path rewriting (`reverse-proxy/main.go:121-148`) -/

/-- Split off everything before the first `/` in the list:
`findSlash l = some (seg, rest)` iff `l = seg ++ [/] ++ rest` with `seg`
slash-free. -/
def findSlash : List Char → Option (List Char × List Char)
  | [] => none
  | c :: cs =>
    if c = '/' then some ([], cs)
    else
      match findSlash cs with
      | none => none
      | some (seg, rest) => some (c :: seg, rest)

/-- The regexp `^/([^/]+)/(.*)$` of the proxy: a leading slash, a nonempty
slash-free first segment, a second slash, and the remainder. Returns
`(firstSegment, remainder)` on a match. -/
def pathMatch (p : List Char) : Option (List Char × List Char) :=
  match p with
  | '/' :: rest =>
    match findSlash rest with
    | some (seg, rest2) => if seg = [] then none else some (seg, rest2)
    | none => none
  | _ => none

/-- The allow-list of static-asset first segments (`knownAssetDirs`). -/
def knownAssetDirs : List String :=
  ["assets", "images", "static", "media", "_next", "js", "css"]

/-- The proxy's request-path rewriting (`reverse-proxy/main.go:121-148`):
`""` or `"/"` becomes `"/index.html"`; then, if the (possibly substituted)
path matches `^/([^/]+)/(.*)$` and its first segment is not in the
allow-list, the path is replaced by `"/" + remainder`. -/
def rewritePath (p : String) : String :=
  let p1 := if p = "/" || p = "" then "/index.html" else p
  match pathMatch p1.data with
  | some (seg, rest) =>
    if knownAssetDirs.contains (String.mk seg) then p1 else String.mk ('/' :: rest)
  | none => p1

/-- Reference rewriter written from the claim's words (C8): for any path
other than `""`/`"/"`, whenever the *first segment* (even of a
single-segment path with no second slash) is not in the allow-list, that
segment is stripped. -/
def rewritePathClaimRef (p : String) : String :=
  if p = "/" || p = "" then "/index.html"
  else
    match p.data with
    | '/' :: rest =>
      match findSlash rest with
      | some (seg, rest2) =>
        if seg ≠ [] && !(knownAssetDirs.contains (String.mk seg)) then
          String.mk ('/' :: rest2)
        else p
      | none =>
        if rest ≠ [] && !(knownAssetDirs.contains (String.mk rest)) then "/"
        else p
    | _ => p

/-! ## Status evolution of one deployment under the pipeline

Auxiliary pure views of how `statusOf d` evolves per processed log line,
used to reason about batch replay. -/

/-- How the (optional) stored status of the targeted deployment evolves
under `updateDeploymentStatus`: a classified signal overwrites the status
when the row exists; otherwise nothing changes. -/
def gStep (o : Option Status) (log : String) : Option Status :=
  match classify log with
  | some st => o.map (fun _ => st)
  | none => o

/-- Status evolution for one line when the row exists. -/
def stepP (x : Status) (log : String) : Status := (classify log).getD x

/-- Status evolution across a list of lines when the row exists. -/
def runP (x : Status) (logs : List String) : Status := logs.foldl stepP x

/-! ## Concrete demo inputs -/

/-- Store with a single COMPLETED deployment `d1`. -/
def storeCompleted : Store :=
  { projects := [],
    deployments := [{ id := "d1", projectId := "p1", status := Status.COMPLETED,
                      createdAt := 0, updatedAt := 0 }] }

/-- Store with a single QUEUED deployment `d1`. -/
def storeQueued : Store :=
  { projects := [],
    deployments := [{ id := "d1", projectId := "p1", status := Status.QUEUED,
                      createdAt := 0, updatedAt := 0 }] }

/-- Project `p1` with slug `brave-solid-otter` and no deployment yet. -/
def projOtter : Project :=
  { id := "p1", name := "demo", gitRepoUrl := "https://example.com/repo.git",
    slug := "brave-solid-otter", framework := "REACT",
    latestDeploymentId := none }

/-- Store holding only `projOtter`. -/
def storeProj : Store := { projects := [projOtter], deployments := [] }

/-- Store holding `projOtter` with `latestDeploymentId = d123`. -/
def storeOtter : Store :=
  { projects := [{ projOtter with latestDeploymentId := some "d123" }],
    deployments := [] }

/-- The empty store. -/
def emptyStore : Store := { projects := [], deployments := [] }

/-- A demo batch of log events, all for deployment `d1`. -/
def demoBatch : List LogEvent :=
  [{ deploymentId := "d1", log := "Starting build process..." },
   { deploymentId := "d1", log := "Build output uploaded to S3 successfully" }]

/-- Demo pipeline state over `storeQueued` with an empty sink. -/
def psDemo : PipeState := { store := storeQueued, sink := [] }

/-! ## Helper lemmas -/

/-- `find?` commutes with a `map` whose function does not change the
predicate value. -/
theorem find?_map_of_pred {α : Type} (f : α → α) (p : α → Bool)
    (h : ∀ x, p (f x) = p x) :
    ∀ l : List α, (l.map f).find? p = (l.find? p).map f
  | [] => rfl
  | a :: t => by
    cases hpa : p a with
    | false =>
      have h1 : p (f a) = false := by rw [h a, hpa]
      simp [List.find?, hpa, h1, find?_map_of_pred f p h t]
    | true =>
      have h1 : p (f a) = true := by rw [h a, hpa]
      simp [List.find?, hpa, h1]

/-- `setStatus` rewrites exactly the matching row, as seen through
`findDeployment`. -/
theorem findDeployment_setStatus (s : Store) (did : String) (st : Status) (now : Nat) :
    findDeployment (setStatus s did st now) did
      = (findDeployment s did).map
          (fun d => if d.id == did then { d with status := st, updatedAt := now } else d) := by
  unfold findDeployment setStatus
  apply find?_map_of_pred
  intro x
  by_cases hx : (x.id == did) = true
  · simp [hx]
  · simp [hx]

/-- Through `statusOf`, a `setStatus` on the same id is a pure overwrite of
the stored status (when the row exists). -/
theorem statusOf_setStatus (s : Store) (did : String) (st : Status) (now : Nat) :
    statusOf (setStatus s did st now) did = (statusOf s did).map (fun _ => st) := by
  unfold statusOf
  rw [findDeployment_setStatus]
  cases hfd : findDeployment s did with
  | none => rfl
  | some d =>
    have hfd2 : List.find? (fun x : Deployment => x.id == did) s.deployments = some d := by
      simpa [findDeployment] using hfd
    have hid : d.id = did := by simpa using List.find?_some hfd2
    simp [hid]

/-- `updateDeploymentStatus` is the classifier followed by a conditional
status write. -/
theorem updateDeploymentStatus_eq (did : String) (log : String) (now : Nat) (s : Store) :
    updateDeploymentStatus did log now s =
      (match classify log with
       | some st => setStatus s did st now
       | none => s) := by
  unfold updateDeploymentStatus classify
  by_cases h1 : strIncludes log "Starting" = true
  · simp [h1]
  · rw [Bool.not_eq_true] at h1
    by_cases h2 : strIncludes log "Build output uploaded to S3 successfully" = true
    · simp [h1, h2]
    · rw [Bool.not_eq_true] at h2
      by_cases h3 : (hasSub (lowerL log.data) "error".data
            || hasSub (lowerL log.data) "failed".data) = true
      · simp [h1, h2, h3]
      · rw [Bool.not_eq_true] at h3
        simp [h1, h2, h3]

/-- Status evolution of the targeted deployment under one
`updateDeploymentStatus` call is `gStep`. -/
theorem statusOf_update (did : String) (log : String) (now : Nat) (s : Store) :
    statusOf (updateDeploymentStatus did log now s) did = gStep (statusOf s did) log := by
  rw [updateDeploymentStatus_eq]
  unfold gStep
  cases hc : classify log with
  | none => rfl
  | some st => simp [statusOf_setStatus]

/-- Status evolution of deployment `d` across a batch keyed entirely to `d`
is the `gStep` fold over the batch's log lines. -/
theorem statusOf_processBatch (n : Nat) (d : String) :
    ∀ (batch : List LogEvent) (ps : PipeState), (∀ e ∈ batch, e.deploymentId = d) →
      statusOf (processBatch n ps batch).store d
        = (batch.map LogEvent.log).foldl gStep (statusOf ps.store d)
  | [], _, _ => rfl
  | e :: t, ps, h => by
    have hd : e.deploymentId = d := h e (by simp)
    have ht : ∀ x ∈ t, x.deploymentId = d := fun x hx => h x (by simp [hx])
    show statusOf (processBatch n (processEvent n ps e) t).store d = _
    rw [statusOf_processBatch n d t (processEvent n ps e) ht]
    show (t.map LogEvent.log).foldl gStep
        (statusOf (updateDeploymentStatus e.deploymentId e.log n ps.store) d) = _
    rw [hd, statusOf_update]
    rfl

/-- `gStep` keeps an absent row absent. -/
theorem gStep_none (log : String) : gStep none log = none := by
  unfold gStep; cases classify log <;> rfl

/-- Folding `gStep` from an absent row stays absent. -/
theorem foldl_gStep_none : ∀ logs : List String, logs.foldl gStep none = none
  | [] => rfl
  | l :: t => by rw [List.foldl_cons, gStep_none, foldl_gStep_none t]

/-- `gStep` on a present row is `stepP`. -/
theorem gStep_some (x : Status) (log : String) :
    gStep (some x) log = some (stepP x log) := by
  unfold gStep stepP; cases classify log <;> rfl

/-- Folding `gStep` from a present row is `runP`. -/
theorem foldl_gStep_some :
    ∀ (logs : List String) (x : Status), logs.foldl gStep (some x) = some (runP x logs)
  | [], _ => rfl
  | l :: t, x => by
    rw [List.foldl_cons, gStep_some]
    exact foldl_gStep_some t (stepP x l)

/-- A batch with no classified signal leaves the status unchanged. -/
theorem runP_nosig :
    ∀ logs : List String, (∀ l ∈ logs, classify l = none) → ∀ x, runP x logs = x
  | [], _, _ => rfl
  | l :: t, h, x => by
    have hl : classify l = none := h l (by simp)
    have ht : ∀ y ∈ t, classify y = none := fun y hy => h y (by simp [hy])
    show runP (stepP x l) t = x
    rw [runP_nosig t ht (stepP x l)]
    unfold stepP
    rw [hl]
    rfl

/-- A batch containing at least one classified signal yields a final status
independent of the starting status. -/
theorem runP_sig :
    ∀ logs : List String, (∃ l ∈ logs, (classify l).isSome = true) →
      ∀ x y, runP x logs = runP y logs
  | [], h, _, _ => absurd h (by simp)
  | l :: t, h, x, y => by
    cases hc : classify l with
    | some st =>
      show runP (stepP x l) t = runP (stepP y l) t
      have hxy : stepP x l = stepP y l := by unfold stepP; rw [hc]; rfl
      rw [hxy]
    | none =>
      have ht : ∃ z ∈ t, (classify z).isSome = true := by
        rcases h with ⟨z, hz, hzs⟩
        rcases List.mem_cons.mp hz with rfl | hmem
        · rw [hc] at hzs; simp at hzs
        · exact ⟨z, hmem, hzs⟩
      show runP (stepP x l) t = runP (stepP y l) t
      exact runP_sig t ht _ _

/-- Replaying a batch of log lines is idempotent on the status. -/
theorem runP_idem (logs : List String) (x : Status) :
    runP (runP x logs) logs = runP x logs := by
  by_cases h : ∃ l ∈ logs, (classify l).isSome = true
  · exact runP_sig logs h _ x
  · push_neg at h
    have h2 : ∀ l ∈ logs, classify l = none := by
      intro l hl
      cases hcl : classify l with
      | none => rfl
      | some st => exact absurd (by rw [hcl]; rfl) (h l hl)
    rw [runP_nosig logs h2 x]
    exact runP_nosig logs h2 x

/-- Replaying a batch of log lines is idempotent on the optional status. -/
theorem foldl_gStep_idem (logs : List String) (o : Option Status) :
    logs.foldl gStep (logs.foldl gStep o) = logs.foldl gStep o := by
  cases o with
  | none => rw [foldl_gStep_none, foldl_gStep_none]
  | some x => rw [foldl_gStep_some, foldl_gStep_some, runP_idem]

/-- The found project carries the looked-up id. -/
theorem findProject_id {s : Store} {pid : String} {p : Project}
    (hp : findProject s pid = some p) : p.id = pid := by
  have h2 : List.find? (fun x : Project => x.id == pid) s.projects = some p := by
    simpa [findProject] using hp
  simpa using List.find?_some h2

/-- `setLatest` rewrites exactly the matching project, as seen through
`findProjectBySlug` (the update does not touch the slug). -/
theorem findProjectBySlug_setLatest (s : Store) (pid did sl : String) :
    findProjectBySlug (setLatest s pid did) sl
      = (findProjectBySlug s sl).map
          (fun p => if p.id == pid then { p with latestDeploymentId := some did } else p) := by
  unfold findProjectBySlug setLatest
  apply find?_map_of_pred
  intro x
  by_cases hx : (x.id == pid) = true
  · simp [hx]
  · simp [hx]

/-- `setStatus` does not touch the project table. -/
theorem findProjectBySlug_setStatus (s : Store) (did : String) (st : Status)
    (now : Nat) (sl : String) :
    findProjectBySlug (setStatus s did st now) sl = findProjectBySlug s sl := rfl

/-- `addDeployment` does not touch the project table. -/
theorem findProjectBySlug_addDeployment (s : Store) (d : Deployment) (sl : String) :
    findProjectBySlug (addDeployment s d) sl = findProjectBySlug s sl := rfl

/-- `Option.map` preserves `isSome`. -/
theorem isSome_map {α β : Type} (f : α → β) (o : Option α) :
    (o.map f).isSome = o.isSome := by cases o <;> rfl

/-- A `find?` over a list extended on the right with a matching element is
always some. -/
theorem find?_append_right {α : Type} (p : α → Bool) (x : α) (hx : p x = true) :
    ∀ l : List α, ((l ++ [x]).find? p).isSome = true
  | [] => by simp [List.find?, hx]
  | a :: t => by
    cases ha : p a with
    | true => simp [List.find?, ha]
    | false => simpa [List.find?, ha] using find?_append_right p x hx t

/-- The failing-dispatch branch of the deploy handler, fully unfolded. -/
theorem deployHandler_fail {s : Store} {pid : String} {p : Project}
    (hp : findProject s pid = some p) (nid : String) (now : Nat) :
    deployHandler pid nid now false s
      = (setStatus (setLatest (addDeployment s
            { id := nid, projectId := pid, status := Status.QUEUED,
              createdAt := now, updatedAt := now }) pid nid) nid Status.FAILED now,
         [Eff.createDep nid pid, Eff.setLatestEff pid nid,
          Eff.runTask pid nid p.gitRepoUrl p.framework,
          Eff.respond 500, Eff.setStatusEff nid Status.FAILED]) := by
  simp [deployHandler, hp]

/-- After a failing dispatch the new deployment row reads `FAILED`. -/
theorem statusOf_deployFail {s : Store} {pid : String} {p : Project}
    (hp : findProject s pid = some p) (nid : String) (now : Nat) :
    statusOf (deployHandler pid nid now false s).1 nid = some Status.FAILED := by
  rw [deployHandler_fail hp]
  show statusOf (setStatus _ nid Status.FAILED now) nid = some Status.FAILED
  rw [statusOf_setStatus]
  have hdep : (fun d : Deployment => d.id == nid)
      { id := nid, projectId := pid, status := Status.QUEUED,
        createdAt := now, updatedAt := now } = true := by simp
  have hs : (statusOf (setLatest (addDeployment s
      { id := nid, projectId := pid, status := Status.QUEUED,
        createdAt := now, updatedAt := now }) pid nid) nid).isSome = true := by
    unfold statusOf findDeployment setLatest addDeployment
    rw [isSome_map]
    exact find?_append_right (fun d : Deployment => d.id == nid)
      { id := nid, projectId := pid, status := Status.QUEUED,
        createdAt := now, updatedAt := now } hdep s.deployments
  cases hsv : statusOf (setLatest (addDeployment s
      { id := nid, projectId := pid, status := Status.QUEUED,
        createdAt := now, updatedAt := now }) pid nid) nid with
  | none => rw [hsv] at hs; simp at hs
  | some st => rfl

/-- The cancel handler on a known deployment, as one conditional. -/
theorem cancelHandler_eq {s : Store} {id : String} {now : Nat} {d : Deployment}
    (hd : findDeployment s id = some d) :
    cancelHandler id now s =
      if d.status = Status.PENDING ∨ d.status = Status.QUEUED ∨ d.status = Status.IN_PROGRESS
      then (CancelResult.ok, setStatus s id Status.FAILED now)
      else (CancelResult.invalidState d.status, s) := by
  simp only [cancelHandler, hd]
  by_cases h : d.status = Status.PENDING ∨ d.status = Status.QUEUED ∨ d.status = Status.IN_PROGRESS
  · rw [if_neg (by tauto), if_pos h]
  · rw [if_pos (by tauto), if_neg h]

/-! ## Claims -/

/-- Claim C1, counterexample: `updateDeploymentStatus` has no terminal
guard. A deployment whose status is `COMPLETED` is moved to `FAILED` by a
later ingested line containing `error`, so a transition after a terminal
state is not a silent no-op. -/
theorem C1_counterexample :
    statusOf storeCompleted "d1" = some Status.COMPLETED ∧
    statusOf (updateDeploymentStatus "d1" "npm error detected" 5 storeCompleted) "d1"
      = some Status.FAILED ∧
    Status.FAILED ≠ Status.COMPLETED := by decide

/-- Claim C1, amended: the log-driven transition is unconditional — it
never inspects the current status. A line with no classified signal leaves
the store (hence `status` and `updatedAt`) unchanged; a line with a signal
overwrites `status` (and bumps `updatedAt`) even when the current status
is terminal. -/
theorem C1_transition_unconditional (s : Store) (did log : String) (now : Nat) :
    (classify log = none → updateDeploymentStatus did log now s = s) ∧
    (∀ st d, classify log = some st → findDeployment s did = some d →
      findDeployment (updateDeploymentStatus did log now s) did
        = some { d with status := st, updatedAt := now }) := by
  constructor
  · intro h
    rw [updateDeploymentStatus_eq, h]
  · intro st d hc hd
    rw [updateDeploymentStatus_eq, hc]
    show findDeployment (setStatus s did st now) did = _
    rw [findDeployment_setStatus, hd]
    have hfd2 : List.find? (fun x : Deployment => x.id == did) s.deployments = some d := by
      simpa [findDeployment] using hd
    have hid : d.id = did := by simpa using List.find?_some hfd2
    simp [hid]

/-- Claim C1 witness: a no-signal line is a no-op on a terminal store, and
an `error` line overwrites a COMPLETED record. -/
theorem C1_transition_unconditional_witness :
    updateDeploymentStatus "d1" "fetching deps" 7 storeCompleted = storeCompleted ∧
    findDeployment (updateDeploymentStatus "d1" "npm error detected" 5 storeCompleted) "d1"
      = some { id := "d1", projectId := "p1", status := Status.FAILED,
               createdAt := 0, updatedAt := 5 } :=
  ⟨(C1_transition_unconditional storeCompleted "d1" "fetching deps" 7).1 (by decide),
   (C1_transition_unconditional storeCompleted "d1" "npm error detected" 5).2
      Status.FAILED
      { id := "d1", projectId := "p1", status := Status.COMPLETED,
        createdAt := 0, updatedAt := 0 }
      (by decide) (by decide)⟩

/-- Claim C3, counterexample: the code checks *containment* of the
build-success sentinel, not exact equality. A line that strictly contains
the sentinel and also mentions an error is classified `COMPLETED` by the
code, while the claimed reference definition classifies it `FAILED`. -/
theorem C3_counterexample :
    classify "error: Build output uploaded to S3 successfully"
      = some Status.COMPLETED ∧
    classifyClaimRef "error: Build output uploaded to S3 successfully"
      = some Status.FAILED ∧
    some Status.COMPLETED ≠ some Status.FAILED := by decide

/-- Claim C3, amended: `classify` evaluates its rules in priority order and
equals the reference rule list in which rule 2 tests *containment* of the
build-success sentinel (not exact equality): build-start marker →
IN_PROGRESS (taking precedence); else sentinel containment → COMPLETED;
else case-insensitive `error`/`failed` → FAILED; else no signal. -/
theorem C3_classifier_policy (log : String) :
    classify log = firstMatch amendedRules log ∧
    (strIncludes log "Starting" = true → classify log = some Status.IN_PROGRESS) ∧
    (strIncludes log "Starting" = false →
      strIncludes log "Build output uploaded to S3 successfully" = true →
      classify log = some Status.COMPLETED) ∧
    (strIncludes log "Starting" = false →
      strIncludes log "Build output uploaded to S3 successfully" = false →
      (hasSub (lowerL log.data) "error".data || hasSub (lowerL log.data) "failed".data) = true →
      classify log = some Status.FAILED) ∧
    (strIncludes log "Starting" = false →
      strIncludes log "Build output uploaded to S3 successfully" = false →
      (hasSub (lowerL log.data) "error".data || hasSub (lowerL log.data) "failed".data) = false →
      classify log = none) := by
  refine ⟨rfl, ?_, ?_, ?_, ?_⟩ <;> intros <;> simp [classify, *]

/-- Claim C3 witness: the four rule outcomes on concrete lines. -/
theorem C3_classifier_policy_witness :
    classify "Starting build process..." = some Status.IN_PROGRESS ∧
    classify "Build output uploaded to S3 successfully" = some Status.COMPLETED ∧
    classify "npm ERR! 1 error detected" = some Status.FAILED ∧
    classify "fetching deps" = none :=
  ⟨(C3_classifier_policy "Starting build process...").2.1 (by decide),
   (C3_classifier_policy "Build output uploaded to S3 successfully").2.2.1
      (by decide) (by decide),
   (C3_classifier_policy "npm ERR! 1 error detected").2.2.2.1
      (by decide) (by decide) (by decide),
   (C3_classifier_policy "fetching deps").2.2.2.2
      (by decide) (by decide) (by decide)⟩

/-- Claim C9: replaying a batch of log events, all keyed to one deployment,
leaves that deployment in the same final status as processing the batch
once (status updates depend only on the line content, so the last
classified signal wins both times). -/
theorem C9_idempotent_ingestion (ps : PipeState) (batch : List LogEvent) (d : String)
    (n1 n2 : Nat) (h : ∀ e ∈ batch, e.deploymentId = d) :
    statusOf (processBatch n2 (processBatch n1 ps batch) batch).store d
      = statusOf (processBatch n1 ps batch).store d := by
  rw [statusOf_processBatch n2 d batch (processBatch n1 ps batch) h,
      statusOf_processBatch n1 d batch ps h]
  exact foldl_gStep_idem (batch.map LogEvent.log) (statusOf ps.store d)

/-- Claim C9 witness: double-processing the demo batch ends at the same
status as single processing. -/
theorem C9_idempotent_ingestion_witness :
    (∀ e ∈ demoBatch, e.deploymentId = "d1") ∧
    statusOf (processBatch 2 (processBatch 1 psDemo demoBatch) demoBatch).store "d1"
      = statusOf (processBatch 1 psDemo demoBatch).store "d1" :=
  ⟨by decide, C9_idempotent_ingestion psDemo demoBatch "d1" 1 2 (by decide)⟩

/-- Claim C6, counterexample: the pipeline runs the classifier/transition
*before* archiving. For a `Starting` line the transition write precedes
the archive insert in the effect trace, so a transition occurs for an
event that has not yet been archived. -/
theorem C6_counterexample :
    processEventTrace { deploymentId := "d1", log := "Starting build process..." }
      = [PipeEff.transition "d1" Status.IN_PROGRESS,
         PipeEff.archive "d1" "Starting build process..."] ∧
    effBefore (processEventTrace { deploymentId := "d1", log := "Starting build process..." })
        (PipeEff.archive "d1" "Starting build process...")
        (PipeEff.transition "d1" Status.IN_PROGRESS) = false ∧
    effBefore (processEventTrace { deploymentId := "d1", log := "Starting build process..." })
        (PipeEff.transition "d1" Status.IN_PROGRESS)
        (PipeEff.archive "d1" "Starting build process...") = true := by decide

/-- Claim C6, amended: for every consumed log event the pipeline applies
the classifier and any resulting status transition first, and archives the
event afterwards; the archive insert is always the last effect, and a
classified event's transition strictly precedes its archive step. -/
theorem C6_transition_then_archive (e : LogEvent) :
    (processEventTrace e).getLast? = some (PipeEff.archive e.deploymentId e.log) ∧
    (∀ st, classify e.log = some st →
        processEventTrace e
          = [PipeEff.transition e.deploymentId st,
             PipeEff.archive e.deploymentId e.log] ∧
        effBefore (processEventTrace e) (PipeEff.transition e.deploymentId st)
          (PipeEff.archive e.deploymentId e.log) = true) ∧
    (classify e.log = none →
        processEventTrace e = [PipeEff.archive e.deploymentId e.log]) := by
  refine ⟨?_, ?_, ?_⟩
  · unfold processEventTrace
    cases classify e.log <;> rfl
  · intro st hc
    constructor
    · unfold processEventTrace
      rw [hc]
      rfl
    · simp [processEventTrace, hc, effBefore, firstIdx]
  · intro hc
    unfold processEventTrace
    rw [hc]
    rfl

/-- Claim C6 witness: a classified event's trace and an unclassified
event's trace. -/
theorem C6_transition_then_archive_witness :
    processEventTrace { deploymentId := "d2", log := "Starting to upload 3 files to S3" }
      = [PipeEff.transition "d2" Status.IN_PROGRESS,
         PipeEff.archive "d2" "Starting to upload 3 files to S3"] ∧
    processEventTrace { deploymentId := "d2", log := "fetching deps" }
      = [PipeEff.archive "d2" "fetching deps"] :=
  ⟨((C6_transition_then_archive
      { deploymentId := "d2", log := "Starting to upload 3 files to S3" }).2.1
      Status.IN_PROGRESS (by decide)).1,
   (C6_transition_then_archive { deploymentId := "d2", log := "fetching deps" }).2.2
      (by decide)⟩

/-- Claim C7, counterexample: cancelling an unknown deployment responds
`NotFound` (HTTP 404), not `InvalidState` (HTTP 400) as the claim states
for the unknown case. -/
theorem C7_counterexample :
    cancelHandler "dX" 3 emptyStore = (CancelResult.notFound, emptyStore) ∧
    cancelStatusCode CancelResult.notFound = 404 ∧
    cancelStatusCode (CancelResult.invalidState Status.COMPLETED) = 400 ∧
    (404 : Nat) ≠ 400 := by decide

/-- Claim C7, amended: `cancel` succeeds iff the current status is
`PENDING`, `QUEUED` or `IN_PROGRESS`, in which case it forces `FAILED`;
on any other *known* status it fails with `InvalidState` (400) leaving the
record unmodified; on an *unknown* deployment it fails with `NotFound`
(404), also leaving the store unmodified. -/
theorem C7_cancel_guard (s : Store) (id : String) (now : Nat) :
    (findDeployment s id = none →
        cancelHandler id now s = (CancelResult.notFound, s)) ∧
    (∀ d, findDeployment s id = some d →
      ((d.status = Status.PENDING ∨ d.status = Status.QUEUED ∨
            d.status = Status.IN_PROGRESS) →
        (cancelHandler id now s).1 = CancelResult.ok ∧
        statusOf (cancelHandler id now s).2 id = some Status.FAILED) ∧
      (¬(d.status = Status.PENDING ∨ d.status = Status.QUEUED ∨
            d.status = Status.IN_PROGRESS) →
        cancelHandler id now s = (CancelResult.invalidState d.status, s))) := by
  constructor
  · intro h
    simp [cancelHandler, h]
  · intro d hd
    constructor
    · intro hok
      rw [cancelHandler_eq hd, if_pos hok]
      refine ⟨rfl, ?_⟩
      show statusOf (setStatus s id Status.FAILED now) id = some Status.FAILED
      rw [statusOf_setStatus]
      unfold statusOf
      rw [hd]
      rfl
    · intro hbad
      rw [cancelHandler_eq hd, if_neg hbad]

/-- Claim C7 witness: cancel succeeds on QUEUED forcing FAILED, is
rejected as InvalidState on COMPLETED, and NotFound on an unknown id. -/
theorem C7_cancel_guard_witness :
    (cancelHandler "d1" 9 storeQueued).1 = CancelResult.ok ∧
    statusOf (cancelHandler "d1" 9 storeQueued).2 "d1" = some Status.FAILED ∧
    cancelHandler "d1" 9 storeCompleted
      = (CancelResult.invalidState Status.COMPLETED, storeCompleted) ∧
    cancelHandler "dY" 9 emptyStore = (CancelResult.notFound, emptyStore) := by
  have hq := ((C7_cancel_guard storeQueued "d1" 9).2
    { id := "d1", projectId := "p1", status := Status.QUEUED,
      createdAt := 0, updatedAt := 0 } (by decide)).1 (by decide)
  have hc := ((C7_cancel_guard storeCompleted "d1" 9).2
    { id := "d1", projectId := "p1", status := Status.COMPLETED,
      createdAt := 0, updatedAt := 0 } (by decide)).2 (by decide)
  have hn := (C7_cancel_guard emptyStore "dY" 9).1 (by decide)
  exact ⟨hq.1, hq.2, hc, hn⟩

/-- Claim C2, counterexample: in the failing-dispatch branch the handler
sends the 500 error response *before* writing the `FAILED` status — the
trace has `respond 500` at an earlier position than the `FAILED` write,
so the transition is not completed before the error is surfaced. -/
theorem C2_counterexample :
    effBefore (deployHandler "p1" "d1" 0 false storeProj).2
        (Eff.respond 500) (Eff.setStatusEff "d1" Status.FAILED) = true ∧
    effBefore (deployHandler "p1" "d1" 0 false storeProj).2
        (Eff.setStatusEff "d1" Status.FAILED) (Eff.respond 500) = false := by decide

/-- Claim C2, amended: when dispatch fails, the deployment's status is
`FAILED` by the time the handler completes, but the 500 error response is
sent *before* the `FAILED` write, not after it. -/
theorem C2_dispatch_failure (s : Store) (pid nid : String) (now : Nat) (p : Project)
    (hp : findProject s pid = some p) :
    statusOf (deployHandler pid nid now false s).1 nid = some Status.FAILED ∧
    effBefore (deployHandler pid nid now false s).2
        (Eff.respond 500) (Eff.setStatusEff nid Status.FAILED) = true := by
  refine ⟨statusOf_deployFail hp nid now, ?_⟩
  rw [deployHandler_fail hp]
  simp [effBefore, firstIdx]

/-- Claim C2 witness: the failing-dispatch branch on the demo store. -/
theorem C2_dispatch_failure_witness :
    statusOf (deployHandler "p1" "d7" 0 false storeProj).1 "d7" = some Status.FAILED ∧
    effBefore (deployHandler "p1" "d7" 0 false storeProj).2
        (Eff.respond 500) (Eff.setStatusEff "d7" Status.FAILED) = true :=
  C2_dispatch_failure storeProj "p1" "d7" 0 projOtter (by decide)

/-- Claim C10: the deploy handler updates the owning project's
`latestDeploymentId` before attempting job submission, and on submission
failure neither the deployment row nor the back-reference is rolled back:
resolving the project's slug afterwards yields the id of the now-FAILED
deployment. -/
theorem C10_failed_dispatch_visible (s : Store) (pid nid sl : String) (now : Nat)
    (p : Project)
    (hp : findProject s pid = some p)
    (hs : findProjectBySlug s sl = some p)
    (hnid : nid ≠ "") :
    effBefore (deployHandler pid nid now false s).2
        (Eff.setLatestEff pid nid)
        (Eff.runTask pid nid p.gitRepoUrl p.framework) = true ∧
    statusOf (deployHandler pid nid now false s).1 nid = some Status.FAILED ∧
    resolveApi sl (deployHandler pid nid now false s).1 = Except.ok nid := by
  have hpid : p.id = pid := findProject_id hp
  refine ⟨?_, statusOf_deployFail hp nid now, ?_⟩
  · rw [deployHandler_fail hp]
    simp [effBefore, firstIdx]
  · rw [deployHandler_fail hp]
    have hsl : findProjectBySlug
        (setStatus (setLatest (addDeployment s
            { id := nid, projectId := pid, status := Status.QUEUED,
              createdAt := now, updatedAt := now }) pid nid) nid Status.FAILED now) sl
        = some { p with latestDeploymentId := some nid } := by
      rw [findProjectBySlug_setStatus, findProjectBySlug_setLatest,
          findProjectBySlug_addDeployment, hs]
      simp [hpid]
    show resolveApi sl (setStatus (setLatest (addDeployment s
        { id := nid, projectId := pid, status := Status.QUEUED,
          createdAt := now, updatedAt := now }) pid nid) nid Status.FAILED now)
      = Except.ok nid
    unfold resolveApi
    rw [hsl]
    simp [hnid]

/-- Claim C10 witness: a failing dispatch on the demo project leaves the
FAILED deployment resolvable through the slug. -/
theorem C10_failed_dispatch_visible_witness :
    effBefore (deployHandler "p1" "d9" 0 false storeProj).2
        (Eff.setLatestEff "p1" "d9")
        (Eff.runTask "p1" "d9" projOtter.gitRepoUrl projOtter.framework) = true ∧
    statusOf (deployHandler "p1" "d9" 0 false storeProj).1 "d9" = some Status.FAILED ∧
    resolveApi "brave-solid-otter" (deployHandler "p1" "d9" 0 false storeProj).1
      = Except.ok "d9" :=
  C10_failed_dispatch_visible storeProj "p1" "d9" "brave-solid-otter" 0 projOtter
    (by decide) (by decide) (by decide)

/-- Claim C4: for a hostname whose first label is slug-shaped, the resolve
endpoint looks the project up by slug and responds 404 (NotFound) when the
project is missing or its `latestDeploymentId` back-reference is unset;
on success the proxy's artifact base path is built from that
`latestDeploymentId`. -/
theorem C4_slug_resolution (s : Store) (host root sub : String)
    (hsub : firstLabel host = sub) (hslug : slugShape sub = true) :
    (findProjectBySlug s sub = none → resolveApi sub s = Except.error 404) ∧
    (∀ p, findProjectBySlug s sub = some p → p.latestDeploymentId = none →
        resolveApi sub s = Except.error 404) ∧
    (∀ p did, findProjectBySlug s sub = some p → p.latestDeploymentId = some did →
        did ≠ "" →
        resolveApi sub s = Except.ok did ∧
        proxyTargetBase root host s true = Except.ok (artifactBase root did)) := by
  refine ⟨?_, ?_, ?_⟩
  · intro h
    simp [resolveApi, h]
  · intro p hp hld
    simp [resolveApi, hp, hld]
  · intro p did hp hld hne
    have hres : resolveApi sub s = Except.ok did := by
      simp [resolveApi, hp, hld, hne]
    refine ⟨hres, ?_⟩
    simp [proxyTargetBase, proxyResolve, hsub, hslug, apiRespOf, hres,
      proxyResolveStep, hne, artifactBase, Except.map]

/-- Claim C4 witness: resolving the demo slug-shaped hostname yields the
latest deployment id and the artifact base built from it. -/
theorem C4_slug_resolution_witness :
    resolveApi "brave-solid-otter" storeOtter = Except.ok "d123" ∧
    proxyTargetBase "https://bucket.s3.region.amazonaws.com/__output/"
        "brave-solid-otter.example.com" storeOtter true
      = Except.ok "https://bucket.s3.region.amazonaws.com/__output/d123/" := by
  have h := (C4_slug_resolution storeOtter "brave-solid-otter.example.com"
      "https://bucket.s3.region.amazonaws.com/__output/" "brave-solid-otter"
      (by decide) (by decide)).2.2
      { projOtter with latestDeploymentId := some "d123" } "d123"
      (by decide) (by decide) (by decide)
  exact ⟨h.1, h.2.trans rfl⟩

/-- Claim C5, counterexample: the proxy maps the API's 404 (slug not
found) and a transport error to the *same* reply — HTTP 500 with body
`Failed to receive deployment Id` — so the caller receives 500 (not 404)
for an unknown slug and cannot distinguish the two failure modes. -/
theorem C5_counterexample :
    proxyResolve "aaa-bbb-ccc.example.com" emptyStore true
      = Except.error { code := 500, msg := "Failed to receive deployment Id" } ∧
    proxyResolve "aaa-bbb-ccc.example.com" emptyStore false
      = Except.error { code := 500, msg := "Failed to receive deployment Id" } ∧
    proxyResolve "aaa-bbb-ccc.example.com" emptyStore true
      = proxyResolve "aaa-bbb-ccc.example.com" emptyStore false ∧
    (500 : Nat) ≠ 404 :=
  ⟨rfl, rfl, rfl, by decide⟩

/-- Claim C5, amended: for a slug-shaped hostname, both failure modes —
slug not found (the API responds 404) and lookup transport error — surface
to the proxy's caller as the identical HTTP 500 reply, so they are *not*
distinguishable by the caller. -/
theorem C5_failure_modes_conflated (s : Store) (host : String)
    (hslug : slugShape (firstLabel host) = true)
    (hnf : findProjectBySlug s (firstLabel host) = none) :
    proxyResolve host s true
      = Except.error { code := 500, msg := "Failed to receive deployment Id" } ∧
    proxyResolve host s false
      = Except.error { code := 500, msg := "Failed to receive deployment Id" } ∧
    proxyResolve host s true = proxyResolve host s false := by
  have h1 : proxyResolve host s true
      = Except.error { code := 500, msg := "Failed to receive deployment Id" } := by
    simp [proxyResolve, hslug, apiRespOf, resolveApi, hnf, proxyResolveStep]
  have h2 : proxyResolve host s false
      = Except.error { code := 500, msg := "Failed to receive deployment Id" } := by
    simp [proxyResolve, hslug, apiRespOf, proxyResolveStep]
  exact ⟨h1, h2, h1.trans h2.symm⟩

/-- Claim C5 witness: both failure modes on a concrete unknown slug. -/
theorem C5_failure_modes_conflated_witness :
    proxyResolve "xxx-yyy-zzz.example.com" emptyStore true
      = Except.error { code := 500, msg := "Failed to receive deployment Id" } ∧
    proxyResolve "xxx-yyy-zzz.example.com" emptyStore false
      = Except.error { code := 500, msg := "Failed to receive deployment Id" } ∧
    proxyResolve "xxx-yyy-zzz.example.com" emptyStore true
      = proxyResolve "xxx-yyy-zzz.example.com" emptyStore false :=
  C5_failure_modes_conflated emptyStore "xxx-yyy-zzz.example.com"
    (by decide) (by decide)

/-- Claim C8, counterexample: the claimed unconditional first-segment
stripping contradicts the code (and the claim's own Scenario D) on the
single-segment path `/about`: the code leaves `/about` unchanged because
the rewrite regex requires a second slash, while the claimed rule strips
the segment, yielding `/`. -/
theorem C8_counterexample :
    rewritePath "/about" = "/about" ∧
    rewritePathClaimRef "/about" = "/" ∧
    ("/about" : String) ≠ "/" := by decide

/-- Claim C8, amended: empty or `/` becomes `/index.html`; a path matching
`^/([^/]+)/(.*)$` whose first segment is not in the allow-list is rewritten
to `/` + remainder (the first segment is stripped), and is kept when the
first segment is allow-listed; a path with no second slash — such as
`/about` — is left unchanged. -/
theorem C8_path_rewrite (p : String) :
    rewritePath "" = "/index.html" ∧
    rewritePath "/" = "/index.html" ∧
    rewritePath "/about" = "/about" ∧
    (¬(p = "/" ∨ p = "") → pathMatch p.data = none → rewritePath p = p) ∧
    (∀ seg rest, ¬(p = "/" ∨ p = "") → pathMatch p.data = some (seg, rest) →
        rewritePath p = if knownAssetDirs.contains (String.mk seg) then p
                        else String.mk ('/' :: rest)) := by
  refine ⟨by decide, by decide, by decide, ?_, ?_⟩
  · intro hne hm
    have h1 : p ≠ "/" := fun h => hne (Or.inl h)
    have h2 : p ≠ "" := fun h => hne (Or.inr h)
    simp [rewritePath, h1, h2, hm]
  · intro seg rest hne hm
    have h1 : p ≠ "/" := fun h => hne (Or.inl h)
    have h2 : p ≠ "" := fun h => hne (Or.inr h)
    simp [rewritePath, h1, h2, hm]

/-- Claim C8 witness: a non-allow-listed two-segment path is stripped, an
allow-listed one is kept. -/
theorem C8_path_rewrite_witness :
    rewritePath "/foo/bar.js" = "/bar.js" ∧
    rewritePath "/assets/logo.png" = "/assets/logo.png" :=
  ⟨((C8_path_rewrite "/foo/bar.js").2.2.2.2 "foo".data "bar.js".data
      (by decide) (by decide)).trans (by decide),
   ((C8_path_rewrite "/assets/logo.png").2.2.2.2 "assets".data "logo.png".data
      (by decide) (by decide)).trans (by decide)⟩

end Yok
